import Mathlib

/-!
Verification of the position-lifecycle and execution subsystem of a Binance
USDT-futures trading bot, against its natural-language specification.

The Python source is embedded shallowly:
 * `Decimal` numerics become `ℚ` (the source routes all step/tick rounding
   through `decimal.Decimal`, so exact rational arithmetic is the faithful
   model);
 * dictionaries holding position records become a `Position` structure with
   `Option` fields for entries that may be absent / `None`;
 * effectful branches (exchange orders, Discord alerts, cancels) become
   outcome inductives recording which externally visible actions the branch
   performs.
All definitions are transcribed from the source files
`core/symbol_precision.py`, `core/position_manager.py`,
`core/order_tracker.py` and `live/exit_manager.py`.
-/

namespace Bot

/-- Trade direction, source strings "long" / "short". -/
inductive Direction where
  | long
  | short
deriving DecidableEq, Repr

/-- Per-symbol precision data as resolved by `SymbolPrecision.get_step_size`
and `SymbolPrecision.get_min_notional` (`core/symbol_precision.py`): the
step size used for quantity flooring and the minimum notional. -/
structure PrecEntry where
  stepSize : ℚ
  minNotional : ℚ
deriving DecidableEq, Repr

/-- Transcribes `SymbolPrecision.round_quantity_down` (`core/symbol_precision.py`,
lines 138-160): floor the quantity to a multiple of the step and clamp
negatives to zero.  `Decimal.__floordiv__` truncates toward zero, which
coincides with `⌊·⌋` on the nonnegative quantities all call sites pass;
the final `quantize` to the step's decimal places is the identity on
multiples of the step. -/
def round_quantity_down (e : PrecEntry) (q : ℚ) : ℚ :=
  if e.stepSize = 0 then q
  else
    let r : ℚ := (⌊q / e.stepSize⌋ : ℚ) * e.stepSize
    if r < 0 then 0 else r

/-- Models `Decimal.quantize(Decimal("1e-18"), rounding=ROUND_HALF_UP)` for a
nonnegative value: round to 18 decimal places, ties away from zero. -/
def quantizeHalfUp18 (q : ℚ) : ℚ :=
  (⌊q * 10 ^ 18 + 1 / 2⌋ : ℚ) / 10 ^ 18

/-- Transcribes `SymbolPrecision.get_min_qty_by_min_notional`
(`core/symbol_precision.py`, lines 162-186): minimal quantity satisfying
the min-notional constraint, at least one step; falls back to one step
when no valid price is available. -/
def get_min_qty_by_min_notional (e : PrecEntry) (price : Option ℚ) : ℚ :=
  match price with
  | none => e.stepSize
  | some p =>
    if p ≤ 0 then e.stepSize
    else
      let minQty := quantizeHalfUp18 (e.minNotional / p)
      if minQty < e.stepSize then e.stepSize else minQty

/-- Transcribes `SymbolPrecision.get_trimmed_quantity` (`core/symbol_precision.py`,
lines 188-242): floor the requested quantity to the step; if the floored
value is below the `1e-12` tolerance, escalate to the min-notional-derived
minimum rounded up to the next step multiple. -/
def get_trimmed_quantity (e : PrecEntry) (qty : ℚ) (price : Option ℚ) : ℚ :=
  if qty ≤ 0 then 0
  else
    let trimmed := round_quantity_down e qty
    if 1 / 10 ^ 12 ≤ trimmed then trimmed
    else
      let minQty := get_min_qty_by_min_notional e price
      let step := e.stepSize
      if step ≤ 0 then minQty
      else
        let candidate := if minQty < step then step else (⌈minQty / step⌉ : ℚ) * step
        let final := round_quantity_down e candidate
        if final ≤ 0 then step else final

/-- Poll cadence for order-fill confirmation, `_ORDER_POLL_INTERVAL` in
`core/position_manager.py` (seconds). -/
def ORDER_POLL_INTERVAL : ℚ := 1 / 2

/-- Total poll budget for order-fill confirmation, `_ORDER_POLL_TIMEOUT` in
`core/position_manager.py` (seconds). -/
def ORDER_POLL_TIMEOUT : ℚ := 8

/-- A position record of the store (`core/position_manager.py`).  The
source keeps positions as string-keyed dicts; fields that a record may
lack (or hold `None`) are `Option`s, boolean flags read with
`pos.get(..., False)` are plain `Bool`s.  The source's `partial_tp_*`
keys are rendered `ptp_*` here. -/
structure Position where
  direction : Direction
  entry_price : Option ℚ
  size : Option ℚ
  stop_loss : Option ℚ
  take_profit : Option ℚ
  ptp_price : Option ℚ
  ptp_size : Option ℚ
  ptp_done : Bool
  tp1_triggered : Bool
  awaiting_trail_activation : Bool
  trail_active : Bool
  breakeven : Bool
  breakeven_set_at : Option ℤ
  binance_missing_since : Option ℤ
  peak_price : Option ℚ
  last_ptp_order_id : Option ℕ
  last_ptp_order_status : Option String
  last_ptp_executed_qty : Option ℚ
  last_stop_order_id : Option ℕ
  last_stop_order_status : Option String
  last_stop_executed_qty : Option ℚ
deriving DecidableEq, Repr

/-- Transcribes `PositionManager.set_peak_price` (`core/position_manager.py`, lines
327-334): overwrite `peak_price` with the given (coercible) value and
persist.  There is no monotonicity guard in the store operation itself. -/
def set_peak_price (pos : Position) (price : ℚ) : Position :=
  { pos with peak_price := some price }

/-- The guarded peak update performed by the trailing branch of
`price_poll_exit_loop` (`live/exit_manager.py`, lines 658-669): the loop
reads `peak_price` (defaulting to `entry_price`, then `0.0`) and calls
`set_peak_price` only when the price extends the peak in the trade's
direction. -/
def loop_peak_update (pos : Position) (price : ℚ) : Position :=
  let peak := pos.peak_price.getD (pos.entry_price.getD 0)
  match pos.direction with
  | .long => if peak < price then set_peak_price pos price else pos
  | .short => if price < peak then set_peak_price pos price else pos

/-- Transcribes `PositionManager.is_position_sane` (`core/position_manager.py`, lines
122-212), parameterized by the configured `min_sl_distance_pct`.
For each side: the ordered SL/entry/TP case with the minimum-SL-distance
check, else the breakeven exception (`|sl - entry| ≤ max(EPS, |entry|*1e-8)`
with one of the breakeven flags set and TP absent or on the profit side). -/
def is_position_sane (minSlPct : ℚ) (pos : Position) : Bool :=
  match pos.entry_price, pos.size with
  | some entry, some size =>
    if entry ≤ 0 ∨ size ≤ 0 then false
    else
      let min_sl_abs := |entry| * minSlPct
      let allow_breakeven := pos.tp1_triggered || pos.awaiting_trail_activation || pos.breakeven
      let EPS := max (|entry| * (1 / 10 ^ 8)) (1 / 10 ^ 12)
      let breakeven_ok_long : Bool :=
        match pos.stop_loss with
        | some sl =>
          allow_breakeven && decide (|sl - entry| ≤ max EPS (|entry| * (1 / 10 ^ 8))) &&
            (match pos.take_profit with
             | none => true
             | some tp => decide (entry + EPS < tp))
        | none => false
      let breakeven_ok_short : Bool :=
        match pos.stop_loss with
        | some sl =>
          allow_breakeven && decide (|sl - entry| ≤ max EPS (|entry| * (1 / 10 ^ 8))) &&
            (match pos.take_profit with
             | none => true
             | some tp => decide (tp < entry - EPS))
        | none => false
      match pos.direction with
      | .long =>
        match pos.stop_loss, pos.take_profit with
        | some sl, some tp =>
          if sl + EPS < entry ∧ entry + EPS < tp then
            if entry - sl < min_sl_abs then false else true
          else breakeven_ok_long
        | _, _ => breakeven_ok_long
      | .short =>
        match pos.stop_loss, pos.take_profit with
        | some sl, some tp =>
          if entry < sl - EPS ∧ tp < entry - EPS then
            if sl - entry < min_sl_abs then false else true
          else breakeven_ok_short
        | _, _ => breakeven_ok_short
  | _, _ => false

/-- Result of `PositionManager.add_position`: either the record stored
under the primary `SYMBOL_direction` key (with a possibly auto-widened
stop loss), or a marker diverted to the `…_synced_incomplete` key. -/
inductive AddResult where
  | stored (rec : Position)
  | incompleteMarker
deriving DecidableEq, Repr

/-- Transcribes `PositionManager.add_position` (`core/position_manager.py`, lines
214-279), parameterized by the configured `min_sl_distance_pct` and
`fallback_sl_pct`.  An invalid (absent or non-positive) entry price or
size diverts the record to the incomplete-marker key; otherwise the stop
loss, when present and too close to entry, is widened to
`max(min_sl_abs, fallback_abs)` away from entry and the record is stored
under the primary key.  No other sanity condition is checked on add. -/
def add_position (minSlPct fallbackSlPct : ℚ) (data : Position) : AddResult :=
  match data.entry_price, data.size with
  | some entry, some size =>
    if entry ≤ 0 ∨ size ≤ 0 then .incompleteMarker
    else
      let desired_abs := max (|entry| * minSlPct) (|entry| * fallbackSlPct)
      match data.stop_loss with
      | some sl =>
        match data.direction with
        | .long =>
          if entry - sl < desired_abs then
            .stored { data with stop_loss := some (max (entry - desired_abs) (1 / 10 ^ 8)) }
          else .stored data
        | .short =>
          if sl - entry < desired_abs then
            .stored { data with stop_loss := some (entry + desired_abs) }
          else .stored data
      | none => .stored data
  | _, _ => .incompleteMarker

/-- Outcome of the live branch of `PositionManager.check_partial_tp`,
recording the externally visible effects of each early return:
`skipped` (no numeric data, geometry invalid, TP1 already done or price
not reached), `aborted` (requested qty trimmed to ≤ 0, warning alert),
`notFilled` (poll timeout with no executed qty: "Partial TP order not
filled" alert, best-effort cancel iff an order id exists, position left
untouched), `fullClose` (residual below the minimal step: record updated
then removed via `close_position`), `updated` (the normal partial fill). -/
inductive PtpOutcome where
  | skipped
  | aborted
  | notFilled (pos : Position) (cancelAttempted : Bool)
  | fullClose (pos : Position)
  | updated (pos : Position)
deriving DecidableEq, Repr

/-- The live-mode flow of `PositionManager.check_partial_tp`
(`core/position_manager.py`, lines 391-601) after the order has been
placed and polled: `executed` is the quantity accumulated from the order
response and the poll loop, `lastStatus` the last observed order status,
`orderId` the order id from the create response, `now` the wall clock
used for `breakeven_set_at`.  Field updates on success (lines 573-590):
size, `partial_tp_done`, `tp1_triggered`, stop loss to entry, breakeven —
the source does not touch `awaiting_trail_activation` here. -/
def checkPartialTpLive (e : PrecEntry) (pos : Position) (price : ℚ)
    (orderId : Option ℕ) (lastStatus : String) (executed : ℚ) (now : ℤ) : PtpOutcome :=
  match pos.ptp_price, pos.ptp_size, pos.entry_price, pos.take_profit, pos.size with
  | some ptpPrice, some ptpSize, some entry, some tp, some _ =>
    let geomOk : Bool :=
      match pos.direction with
      | .long => decide (entry < ptpPrice ∧ ptpPrice < tp)
      | .short => decide (tp < ptpPrice ∧ ptpPrice < entry)
    if !geomOk then .skipped
    else
      let reached : Bool :=
        match pos.direction with
        | .long => decide (ptpPrice ≤ price)
        | .short => decide (price ≤ ptpPrice)
      if pos.ptp_done || !reached then .skipped
      else
        let qty_trimmed := get_trimmed_quantity e ptpSize (some ptpPrice)
        if qty_trimmed ≤ 0 then .aborted
        else
          let executed_trimmed := get_trimmed_quantity e executed (some ptpPrice)
          if executed_trimmed ≤ 0 then .notFilled pos orderId.isSome
          else
            let current_size := pos.size.getD 0
            let new_size_raw := max 0 (current_size - executed_trimmed)
            let new_size_trimmed := get_trimmed_quantity e new_size_raw (some price)
            let minimal_step := get_trimmed_quantity e (1 / 10 ^ 12) (some price)
            if new_size_trimmed ≤ 0 ∨ new_size_trimmed < minimal_step then
              .fullClose { pos with
                last_ptp_order_id := orderId
                last_ptp_order_status := some lastStatus
                last_ptp_executed_qty := some executed_trimmed
                ptp_done := true }
            else
              .updated { pos with
                last_ptp_order_id := orderId
                last_ptp_order_status := some lastStatus
                last_ptp_executed_qty := some executed_trimmed
                size := some new_size_trimmed
                ptp_done := true
                tp1_triggered := true
                stop_loss := some entry
                breakeven := true
                breakeven_set_at := some now }
  | _, _, _, _, _ => .skipped

/-- Outcome of the live branch of `PositionManager.check_stop_loss`.
`timeoutKeep` records the effects of the no-fill branch (lines 689-698):
the position record is kept with the order refs persisted,
`cancelAttempted` says whether a cancel of the exit order was attempted
and `alertedManualReconciliation` whether the "Manual reconciliation
required" alert was sent.  `closedAfterFill` is the fill branch (lines
700-706): refs persisted, then the local record removed. -/
inductive SlOutcome where
  | missingData
  | notTriggered
  | abortedZeroQty
  | timeoutKeep (pos : Position) (cancelAttempted : Bool) (alertedManualReconciliation : Bool)
  | closedAfterFill (pos : Position)
deriving DecidableEq, Repr

/-- The live-mode flow of `PositionManager.check_stop_loss`
(`core/position_manager.py`, lines 603-718) after the market exit order
has been placed and polled for up to `ORDER_POLL_TIMEOUT` at
`ORDER_POLL_INTERVAL`: `executed` is the accumulated executed quantity,
`orderId` / `respStatus` come from the create response.  In the no-fill
branch the source persists `last_stop_order_id` / `last_stop_order_status`,
sends the "Manual reconciliation required" alert and returns — it never
calls `futures_cancel_order` there, hence `cancelAttempted := false`. -/
def checkStopLossLive (e : PrecEntry) (pos : Position) (price : ℚ)
    (orderId : Option ℕ) (respStatus : Option String) (executed : ℚ) : SlOutcome :=
  match pos.stop_loss, pos.size with
  | some sl, some size =>
    let triggered : Bool :=
      match pos.direction with
      | .long => decide (price ≤ sl)
      | .short => decide (sl ≤ price)
    if !triggered then .notTriggered
    else
      let qty_trimmed := get_trimmed_quantity e size (some price)
      if qty_trimmed ≤ 0 then .abortedZeroQty
      else
        let executed_trimmed := if executed = 0 then 0 else get_trimmed_quantity e executed (some price)
        if executed_trimmed ≤ 0 then
          .timeoutKeep { pos with
            last_stop_order_id := orderId
            last_stop_order_status := respStatus } false true
        else
          .closedAfterFill { pos with
            last_stop_order_id := orderId
            last_stop_order_status := respStatus
            last_stop_executed_qty := some executed_trimmed }
  | _, _ => .missingData

/-- Grace window before a Binance-missing local position is removed,
`BINANCE_MISSING_GRACE_SECONDS` in `core/position_manager.py` (seconds). -/
def BINANCE_MISSING_GRACE_SECONDS : ℤ := 30

/-- Action taken by one reconciliation pass on a single local position the
exchange reports as absent. -/
inductive SyncAction where
  | markMissing (newSince : ℤ)
  | closeLocal
  | waitGrace
deriving DecidableEq, Repr

/-- The missing-position branch of `PositionManager.sync_with_binance`
(`core/position_manager.py`, lines 798-824) for one local position with
no matching exchange position: when `binance_missing_since` is unset (or
falsy, i.e. `0`) it is set to `now` and persisted; once
`now - missing_since` exceeds the grace window, `close_position` removes
the local record; otherwise the pass only logs and waits. -/
def syncMissingStep (missingSince : Option ℤ) (now : ℤ) : SyncAction :=
  match missingSince with
  | none => .markMissing now
  | some t =>
    if t = 0 then .markMissing now
    else if BINANCE_MISSING_GRACE_SECONDS < now - t then .closeLocal
    else .waitGrace

/-- Lifecycle states of the per-(symbol, side) order tracker
(`core/order_tracker.py`). -/
inductive TrackState where
  | entryPending
  | openPosition
  | exitPending
deriving DecidableEq, Repr

/-- One tracker entry: the dict `{state, order_id, source, timestamp}`
stored in `_ORDER_TRACKER` (timestamps are not modelled). -/
structure TrackerEntry where
  state : TrackState
  order_id : Option ℕ
  source : Option String
deriving DecidableEq, Repr

/-- The `state` of an optional tracker entry, as read by
`_ORDER_TRACKER.get(key, {}).get("state")`: `none` when the key is
absent. -/
def trackerState (e : Option TrackerEntry) : Option TrackState :=
  e.map TrackerEntry.state

/-- Transcribes `mark_exit_pending` (`core/order_tracker.py`, lines 32-43): a
compare-and-set on one key.  If the current state is `EXIT_PENDING` it
returns `false` and leaves the entry unchanged; otherwise (any other
state, or no entry at all) it replaces the whole entry with
`{state: EXIT_PENDING, order_id: None}` — discarding any stored order id
and source — and returns `true`. -/
def mark_exit_pending (e : Option TrackerEntry) : Bool × Option TrackerEntry :=
  if trackerState e = some .exitPending then (false, e)
  else (true, some ⟨.exitPending, none, none⟩)

/-- The results of `n` successive `mark_exit_pending` calls on the same
key with no intervening `clear`, starting from entry `e`. -/
def iterMarkExitPending (e : Option TrackerEntry) : ℕ → List Bool
  | 0 => []
  | n + 1 =>
    let r := mark_exit_pending e
    r.1 :: iterMarkExitPending r.2 n

/-! ### Concrete records for the specification's literal scenarios -/

/-- A fresh position record with no optional data and all flags cleared,
as produced for a just-opened trade before any lifecycle event. -/
def basePos : Position :=
  { direction := .long, entry_price := none, size := none, stop_loss := none,
    take_profit := none, ptp_price := none, ptp_size := none, ptp_done := false,
    tp1_triggered := false, awaiting_trail_activation := false, trail_active := false,
    breakeven := false, breakeven_set_at := none, binance_missing_since := none,
    peak_price := none, last_ptp_order_id := none, last_ptp_order_status := none,
    last_ptp_executed_qty := none, last_stop_order_id := none,
    last_stop_order_status := none, last_stop_executed_qty := none }

/-- Precision entry used by the spec's literal scenarios (S1, S3, S4):
`stepSize = 0.001`, `minNotional = 5`. -/
def ethPrec : PrecEntry := ⟨1 / 1000, 5⟩

/-- Scenario S3/S4 position: LONG, entry 2000, size 0.5, SL 1980, TP 2060,
partial TP at 2020 for size 0.25. -/
def posS3 : Position :=
  { basePos with
      entry_price := some 2000
      size := some (1 / 2)
      stop_loss := some 1980
      take_profit := some 2060
      ptp_price := some 2020
      ptp_size := some (1 / 4) }

/-- The record `check_partial_tp` produces from `posS3` on a confirmed
0.25 fill of order 77 at wall clock 1700000000. -/
def posS3tp1 : Position :=
  { posS3 with
      last_ptp_order_id := some 77
      last_ptp_order_status := some "FILLED"
      last_ptp_executed_qty := some (1 / 4)
      size := some (1 / 4)
      ptp_done := true
      tp1_triggered := true
      stop_loss := some 2000
      breakeven := true
      breakeven_set_at := some 1700000000 }

/-- A LONG position about to stop out: entry 30000, size 0.1, SL 29700,
TP 30600 (scenario S2 geometry). -/
def posSl : Position :=
  { basePos with
      entry_price := some 30000
      size := some (1 / 10)
      stop_loss := some 29700
      take_profit := some 30600 }

/-- The record `check_stop_loss` keeps after an unfilled exit order 55
with creation status "NEW". -/
def posSlKept : Position :=
  { posSl with
      last_stop_order_id := some 55
      last_stop_order_status := some "NEW" }

/-- A LONG position whose take profit sits below entry: entry 100,
size 1, SL 90, TP 50.  `add_position` accepts it (entry and size are
positive and the SL distance is wide enough) although it violates the
`is_position_sane` ordering. -/
def posBadTp : Position :=
  { basePos with
      entry_price := some 100
      size := some 1
      stop_loss := some 90
      take_profit := some 50 }

/-- A LONG position with peak price 100, used to exercise the peak-price
store operation. -/
def posPeak : Position :=
  { basePos with
      entry_price := some 100
      size := some 1
      stop_loss := some 97
      take_profit := some 106
      peak_price := some 100 }

end Bot

namespace Bot

/-! ### Helper lemmas -/

/-- Ceiling expressed through the floor of the negation, so that concrete
ceilings of rational literals can be evaluated. -/
theorem ceil_as_floor (a : ℚ) : ⌈a⌉ = -⌊-a⌋ := by
  conv_lhs => rw [← neg_neg a]
  rw [Int.ceil_neg]

/-- Flooring to the step is the identity on nonnegative integer multiples
of a positive step. -/
theorem round_quantity_down_int_mul (e : PrecEntry) (hstep : 0 < e.stepSize)
    (k : ℤ) (hk : 0 ≤ k) :
    round_quantity_down e ((k : ℚ) * e.stepSize) = (k : ℚ) * e.stepSize := by
  have hne : e.stepSize ≠ 0 := ne_of_gt hstep
  have hdiv : ((k : ℚ) * e.stepSize) / e.stepSize = (k : ℚ) := by field_simp
  have hnonneg : 0 ≤ (k : ℚ) * e.stepSize :=
    mul_nonneg (by exact_mod_cast hk) hstep.le
  unfold round_quantity_down
  rw [if_neg hne]
  simp only [hdiv, Int.floor_intCast]
  rw [if_neg (not_lt.mpr hnonneg)]

/-- Closed form of the escalation branch of `get_trimmed_quantity`: when
the floored quantity falls below the `1e-12` tolerance and the
min-notional ratio needs at most 18 decimal places, the returned quantity
is the min-notional-derived minimum (clamped to at least one step)
rounded up to the next step multiple. -/
theorem trim_qty_escalation_eq (e : PrecEntry) (q p : ℚ)
    (hstep : 0 < e.stepSize) (hp : 0 < p) (hq : 0 < q)
    (hexact : quantizeHalfUp18 (e.minNotional / p) = e.minNotional / p)
    (hfl : round_quantity_down e q < 1 / 10 ^ 12) :
    get_trimmed_quantity e q (some p) =
      (⌈max e.stepSize (e.minNotional / p) / e.stepSize⌉ : ℚ) * e.stepSize := by
  have hM : get_min_qty_by_min_notional e (some p) = max e.stepSize (e.minNotional / p) := by
    simp only [get_min_qty_by_min_notional]
    rw [if_neg (not_le.mpr hp), hexact]
    rcases le_or_lt e.stepSize (e.minNotional / p) with h | h
    · rw [if_neg (not_lt.mpr h), max_eq_right h]
    · rw [if_pos h, max_eq_left h.le]
  have hMs : e.stepSize ≤ max e.stepSize (e.minNotional / p) := le_max_left _ _
  have hones : (1 : ℚ) ≤ max e.stepSize (e.minNotional / p) / e.stepSize :=
    (one_le_div hstep).mpr hMs
  have hk1 : (1 : ℤ) ≤ ⌈max e.stepSize (e.minNotional / p) / e.stepSize⌉ := by
    have h2 := Int.le_ceil (max e.stepSize (e.minNotional / p) / e.stepSize)
    exact_mod_cast hones.trans h2
  have hk0 : (0 : ℤ) ≤ ⌈max e.stepSize (e.minNotional / p) / e.stepSize⌉ :=
    le_trans (by norm_num) hk1
  have hcand_pos : 0 < (⌈max e.stepSize (e.minNotional / p) / e.stepSize⌉ : ℚ) * e.stepSize := by
    have : (1 : ℚ) ≤ (⌈max e.stepSize (e.minNotional / p) / e.stepSize⌉ : ℚ) := by
      exact_mod_cast hk1
    nlinarith
  unfold get_trimmed_quantity
  rw [if_neg (not_le.mpr hq), if_neg (not_le.mpr hfl)]
  simp only [hM]
  rw [if_neg (not_le.mpr hstep), if_neg (not_lt.mpr hMs),
    round_quantity_down_int_mul e hstep _ hk0,
    if_neg (not_le.mpr hcand_pos)]

/-- Starting from a tracker entry already in `EXIT_PENDING`, every further
`mark_exit_pending` call returns `false` and leaves the entry unchanged. -/
theorem iter_mep_pending (n : ℕ) (e : Option TrackerEntry)
    (he : trackerState e = some .exitPending) :
    iterMarkExitPending e n = List.replicate n false := by
  induction n generalizing e with
  | zero => rfl
  | succ n ih =>
    simp only [iterMarkExitPending, mark_exit_pending, he, if_pos]
    exact congrArg _ (ih e he)

/-! ### Claim theorems -/

/-- Claim C6, counterexample: for step 0.001, minNotional 5, price 100 and
requested quantity 0.01, the trimmed quantity is 0.01 — which is neither 0
nor notional-compliant (0.01 · 100 = 1 < 5).  The claimed invariant
"trimQty · p ≥ minNotional or trimQty = 0" fails on every floored-positive
quantity whose notional is below the floor: the escalation path alone
guarantees the notional. -/
theorem trim_qty_notional_cex :
    get_trimmed_quantity ethPrec (1/100) (some 100) = 1/100 ∧
    ¬(ethPrec.minNotional ≤ get_trimmed_quantity ethPrec (1/100) (some 100) * 100 ∨
      get_trimmed_quantity ethPrec (1/100) (some 100) = 0) := by
  norm_num [get_trimmed_quantity, round_quantity_down, get_min_qty_by_min_notional,
    quantizeHalfUp18, ethPrec]

/-- Claim C6, amended: for positive step, price and requested quantity the
trimmed quantity is always positive (never 0), and the notional floor
`minNotional ≤ trimQty · p` is guaranteed on the escalation branch only,
i.e. when flooring the request to the step falls below the `1e-12`
tolerance (`hexact` states that the Decimal quantization of
`minNotional / p` at 18 decimal places is exact). -/
theorem trim_qty_pos_and_escalation_notional (e : PrecEntry) (q p : ℚ)
    (hstep : 0 < e.stepSize) (hp : 0 < p) (hq : 0 < q)
    (hexact : quantizeHalfUp18 (e.minNotional / p) = e.minNotional / p) :
    0 < get_trimmed_quantity e q (some p) ∧
    (round_quantity_down e q < 1 / 10 ^ 12 →
      e.minNotional ≤ get_trimmed_quantity e q (some p) * p) := by
  constructor
  · by_cases hfl : round_quantity_down e q < 1 / 10 ^ 12
    · rw [trim_qty_escalation_eq e q p hstep hp hq hexact hfl]
      have hMs : e.stepSize ≤ max e.stepSize (e.minNotional / p) := le_max_left _ _
      have hones : (1 : ℚ) ≤ max e.stepSize (e.minNotional / p) / e.stepSize :=
        (one_le_div hstep).mpr hMs
      have hk1 : (1 : ℚ) ≤ (⌈max e.stepSize (e.minNotional / p) / e.stepSize⌉ : ℚ) :=
        hones.trans (Int.le_ceil _)
      nlinarith
    · push_neg at hfl
      simp only [get_trimmed_quantity]
      rw [if_neg (not_le.mpr hq), if_pos hfl]
      linarith
  · intro hfl
    rw [trim_qty_escalation_eq e q p hstep hp hq hexact hfl]
    have h1 : max e.stepSize (e.minNotional / p) / e.stepSize ≤
        (⌈max e.stepSize (e.minNotional / p) / e.stepSize⌉ : ℚ) := Int.le_ceil _
    have h2 : max e.stepSize (e.minNotional / p) ≤
        (⌈max e.stepSize (e.minNotional / p) / e.stepSize⌉ : ℚ) * e.stepSize := by
      calc max e.stepSize (e.minNotional / p)
          = max e.stepSize (e.minNotional / p) / e.stepSize * e.stepSize :=
            (div_mul_cancel₀ _ (ne_of_gt hstep)).symm
        _ ≤ (⌈max e.stepSize (e.minNotional / p) / e.stepSize⌉ : ℚ) * e.stepSize :=
            mul_le_mul_of_nonneg_right h1 hstep.le
    have h3 : e.minNotional / p ≤
        (⌈max e.stepSize (e.minNotional / p) / e.stepSize⌉ : ℚ) * e.stepSize :=
      (le_max_right _ _).trans h2
    calc e.minNotional = e.minNotional / p * p := (div_mul_cancel₀ _ (ne_of_gt hp)).symm
      _ ≤ (⌈max e.stepSize (e.minNotional / p) / e.stepSize⌉ : ℚ) * e.stepSize * p :=
          mul_le_mul_of_nonneg_right h3 hp.le

/-- Claim C6, witness: the amended theorem applied at the S1 scenario
(step 0.001, minNotional 5, price 100, requested 0.0004). -/
theorem trim_qty_pos_witness :
    0 < get_trimmed_quantity ethPrec (4/10000) (some 100) ∧
    ethPrec.minNotional ≤ get_trimmed_quantity ethPrec (4/10000) (some 100) * 100 := by
  have h := trim_qty_pos_and_escalation_notional ethPrec (4/10000) 100
    (by norm_num [ethPrec]) (by norm_num) (by norm_num)
    (by norm_num [quantizeHalfUp18, ethPrec])
  exact ⟨h.1, h.2 (by norm_num [round_quantity_down, ethPrec])⟩

/-- Claim C7: when flooring a positive requested quantity to the step
yields 0, `get_trimmed_quantity` returns the least multiple of the step
whose notional at the given price reaches `minNotional` (`hexact` states
that the Decimal quantization of `minNotional / p` at 18 decimal places
is exact, which holds in particular for all scenario inputs). -/
theorem trim_qty_escalates_to_least_multiple (e : PrecEntry) (q p : ℚ)
    (hstep : 0 < e.stepSize) (hp : 0 < p) (hq : 0 < q) (hmn : 0 < e.minNotional)
    (hexact : quantizeHalfUp18 (e.minNotional / p) = e.minNotional / p)
    (hfl : round_quantity_down e q = 0) :
    IsLeast {m : ℚ | (∃ k : ℤ, m = (k : ℚ) * e.stepSize) ∧ e.minNotional ≤ m * p}
      (get_trimmed_quantity e q (some p)) := by
  have hfl' : round_quantity_down e q < 1 / 10 ^ 12 := by rw [hfl]; norm_num
  rw [trim_qty_escalation_eq e q p hstep hp hq hexact hfl']
  have hr : 0 < e.minNotional / p := div_pos hmn hp
  have hkey : ⌈max e.stepSize (e.minNotional / p) / e.stepSize⌉ =
      ⌈e.minNotional / p / e.stepSize⌉ := by
    rcases le_or_lt e.stepSize (e.minNotional / p) with h | h
    · rw [max_eq_right h]
    · rw [max_eq_left h.le, div_self (ne_of_gt hstep)]
      have h1 : (0 : ℚ) < e.minNotional / p / e.stepSize := div_pos hr hstep
      have h2 : e.minNotional / p / e.stepSize ≤ 1 := by
        rw [div_le_one hstep]; exact h.le
      rw [Int.ceil_one]
      symm
      rw [Int.ceil_eq_iff]
      constructor
      · push_cast; linarith
      · push_cast; linarith
  rw [hkey]
  constructor
  · refine ⟨⟨⌈e.minNotional / p / e.stepSize⌉, rfl⟩, ?_⟩
    have h1 : e.minNotional / p / e.stepSize ≤
        (⌈e.minNotional / p / e.stepSize⌉ : ℚ) := Int.le_ceil _
    have h2 : e.minNotional / p ≤ (⌈e.minNotional / p / e.stepSize⌉ : ℚ) * e.stepSize := by
      calc e.minNotional / p = e.minNotional / p / e.stepSize * e.stepSize :=
            (div_mul_cancel₀ _ (ne_of_gt hstep)).symm
        _ ≤ (⌈e.minNotional / p / e.stepSize⌉ : ℚ) * e.stepSize :=
            mul_le_mul_of_nonneg_right h1 hstep.le
    calc e.minNotional = e.minNotional / p * p := (div_mul_cancel₀ _ (ne_of_gt hp)).symm
      _ ≤ (⌈e.minNotional / p / e.stepSize⌉ : ℚ) * e.stepSize * p :=
          mul_le_mul_of_nonneg_right h2 hp.le
  · rintro m ⟨⟨k, rfl⟩, hm⟩
    have h1 : e.minNotional / p ≤ (k : ℚ) * e.stepSize := by
      rw [div_le_iff₀ hp]; exact hm
    have h2 : e.minNotional / p / e.stepSize ≤ (k : ℚ) := by
      rw [div_le_iff₀ hstep]; exact h1
    have h3 : ⌈e.minNotional / p / e.stepSize⌉ ≤ k := Int.ceil_le.mpr h2
    exact mul_le_mul_of_nonneg_right
      (show ((⌈e.minNotional / p / e.stepSize⌉ : ℤ) : ℚ) ≤ (k : ℚ) by exact_mod_cast h3)
      hstep.le

/-- Claim C7, witness: scenario S1 — step 0.001, minNotional 5, price 100,
requested 0.0004: flooring yields 0 and the escalated result is exactly
0.05, the least step multiple with notional at least 5. -/
theorem trim_qty_escalates_witness :
    get_trimmed_quantity ethPrec (4/10000) (some 100) = 1/20 ∧
    IsLeast {m : ℚ | (∃ k : ℤ, m = (k : ℚ) * ethPrec.stepSize) ∧ ethPrec.minNotional ≤ m * 100}
      (get_trimmed_quantity ethPrec (4/10000) (some 100)) := by
  refine ⟨?_, trim_qty_escalates_to_least_multiple ethPrec (4/10000) 100
    (by norm_num [ethPrec]) (by norm_num) (by norm_num) (by norm_num [ethPrec])
    (by norm_num [quantizeHalfUp18, ethPrec]) (by norm_num [round_quantity_down, ethPrec])⟩
  norm_num [get_trimmed_quantity, round_quantity_down, get_min_qty_by_min_notional,
    quantizeHalfUp18, ethPrec, ceil_as_floor]

/-- Claim C1, counterexample: scenario S3 (LONG entry 2000 size 0.5,
partial TP 2020 for 0.25, confirmed fill executedQty 0.25 at price
2020.1).  `check_partial_tp` produces size 0.25, stop loss 2000 and sets
`partial_tp_done`, `tp1_triggered` and `breakeven` — but it does NOT set
`awaiting_trail_activation`, which stays `false`, contrary to the claim
that all four flags are set. -/
theorem checkPartialTp_S3_no_trail_cex :
    checkPartialTpLive ethPrec posS3 (20201/10) (some 77) "FILLED" (1/4) 1700000000
      = .updated posS3tp1 ∧
    posS3tp1.awaiting_trail_activation = false ∧
    posS3tp1.size = some (1/4) ∧ posS3tp1.stop_loss = some 2000 ∧
    posS3tp1.ptp_done = true ∧ posS3tp1.tp1_triggered = true ∧ posS3tp1.breakeven = true := by
  constructor
  · norm_num [checkPartialTpLive, posS3, basePos, ethPrec, posS3tp1, ceil_as_floor,
      get_trimmed_quantity, round_quantity_down, get_min_qty_by_min_notional, quantizeHalfUp18]
  · norm_num [posS3tp1, posS3, basePos]

/-- Claim C1, amended: whenever the polling partial-TP executor
(`check_partial_tp`, live mode) settles on the partial-fill update, the
resulting record is exactly the input record with the order refs
persisted, `size` set to the step-trimmed difference
`trim(max 0 (size - executedTrimmed))`, `partial_tp_done = true`,
`tp1_triggered = true`, stop loss moved to the entry price,
`breakeven = true` and `breakeven_set_at = now` —
`awaiting_trail_activation` is left unchanged (only the non-polling
`handle_tp1` path sets it). -/
theorem checkPartialTp_updated_inv (e : PrecEntry) (pos : Position) (price : ℚ)
    (oid : Option ℕ) (st : String) (executed : ℚ) (now : ℤ) (p : Position)
    (h : checkPartialTpLive e pos price oid st executed now = .updated p) :
    p = { pos with
      last_ptp_order_id := oid
      last_ptp_order_status := some st
      last_ptp_executed_qty := some (get_trimmed_quantity e executed pos.ptp_price)
      size := some (get_trimmed_quantity e
        (max 0 (pos.size.getD 0 - get_trimmed_quantity e executed pos.ptp_price)) (some price))
      ptp_done := true
      tp1_triggered := true
      stop_loss := pos.entry_price
      breakeven := true
      breakeven_set_at := some now } := by
  simp only [checkPartialTpLive] at h
  split at h
  case _ pp ps entry tp sz hpp hps hen htp hsz =>
    split_ifs at h
    injection h with h
    subst h
    simp [hpp, hen, hsz]
  case _ => simp at h

/-- Claim C1, witness: the amended theorem applied at scenario S3. -/
theorem checkPartialTp_updated_inv_witness :
    posS3tp1 = { posS3 with
      last_ptp_order_id := some 77
      last_ptp_order_status := some "FILLED"
      last_ptp_executed_qty := some (get_trimmed_quantity ethPrec (1/4) posS3.ptp_price)
      size := some (get_trimmed_quantity ethPrec
        (max 0 (posS3.size.getD 0 - get_trimmed_quantity ethPrec (1/4) posS3.ptp_price))
        (some (20201/10)))
      ptp_done := true
      tp1_triggered := true
      stop_loss := posS3.entry_price
      breakeven := true
      breakeven_set_at := some 1700000000 } :=
  checkPartialTp_updated_inv ethPrec posS3 (20201/10) (some 77) "FILLED" (1/4) 1700000000
    posS3tp1
    (by norm_num [checkPartialTpLive, posS3, basePos, ethPrec, posS3tp1, ceil_as_floor,
      get_trimmed_quantity, round_quantity_down, get_min_qty_by_min_notional, quantizeHalfUp18])

/-- Claim C9, amended: when the polling partial-TP executor observes no
fill (executed trimmed ≤ 0 after the poll budget), the position record is
returned entirely unchanged — in particular the partial order id is NOT
persisted on it — a cancel is attempted exactly when an order id exists,
the "Partial TP order not filled" alert is emitted (the `notFilled`
outcome), and `partial_tp_done` remains false. -/
theorem checkPartialTp_notFilled_inv (e : PrecEntry) (pos : Position) (price : ℚ)
    (oid : Option ℕ) (st : String) (executed : ℚ) (now : ℤ) (p : Position) (c : Bool)
    (h : checkPartialTpLive e pos price oid st executed now = .notFilled p c) :
    p = pos ∧ c = oid.isSome ∧ pos.ptp_done = false := by
  simp only [checkPartialTpLive] at h
  split at h
  case _ pp ps entry tp sz hpp hps hen htp hsz =>
    split_ifs at h with hgeom hdone hqty hexec hres
    simp only [PtpOutcome.notFilled.injEq] at h
    refine ⟨h.1.symm, h.2.symm, ?_⟩
    simp only [Bool.or_eq_true, not_or, Bool.not_eq_true] at hdone
    exact hdone.1
  case _ => simp at h

/-- Claim C9, counterexample: scenario S4 (same position as S3, polling
observes no fill).  The outcome keeps the position record exactly as it
was: size stays 0.5, `partial_tp_done` stays false, and the order id 77 is
NOT persisted (`last_partial_order_id` remains absent), contrary to the
claim that the partial order id is persisted on the position. -/
theorem checkPartialTp_S4_timeout_cex :
    checkPartialTpLive ethPrec posS3 (20201/10) (some 77) "NEW" 0 1700000000
      = .notFilled posS3 true ∧ posS3.last_ptp_order_id = none := by
  constructor
  · norm_num [checkPartialTpLive, posS3, basePos, ethPrec, ceil_as_floor,
      get_trimmed_quantity, round_quantity_down, get_min_qty_by_min_notional, quantizeHalfUp18]
  · norm_num [posS3, basePos]

/-- Claim C9, witness: the amended theorem applied at scenario S4. -/
theorem checkPartialTp_notFilled_inv_witness :
    posS3 = posS3 ∧ true = (some (77:ℕ)).isSome ∧ posS3.ptp_done = false :=
  checkPartialTp_notFilled_inv ethPrec posS3 (20201/10) (some 77) "NEW" 0 1700000000
    posS3 true
    (by norm_num [checkPartialTpLive, posS3, basePos, ethPrec, ceil_as_floor,
      get_trimmed_quantity, round_quantity_down, get_min_qty_by_min_notional, quantizeHalfUp18])

/-- Claim C2, amended: when the polling exit controller
(`check_stop_loss`, live mode, poll budget `ORDER_POLL_TIMEOUT` = 8 s at
`ORDER_POLL_INTERVAL` = 0.5 s) observes nothing executed, it records the
order id and last order status on the position, keeps the local record
(the `timeoutKeep` outcome never removes it) and alerts that manual
reconciliation is required — but it does NOT attempt a cancel of the
order (no cancel call exists on that branch). -/
theorem checkStopLoss_timeout_inv (e : PrecEntry) (pos : Position) (price : ℚ)
    (oid : Option ℕ) (rst : Option String) (executed : ℚ) (p : Position) (c a : Bool)
    (h : checkStopLossLive e pos price oid rst executed = .timeoutKeep p c a) :
    p = { pos with last_stop_order_id := oid, last_stop_order_status := rst } ∧
    c = false ∧ a = true ∧ ORDER_POLL_TIMEOUT = 8 ∧ ORDER_POLL_INTERVAL = 1 / 2 := by
  simp only [checkStopLossLive] at h
  split at h
  case _ sl size hsl hsize =>
    split_ifs at h with htrig hqty hexec0 hexec1
    all_goals simp only [SlOutcome.timeoutKeep.injEq] at h
    all_goals exact ⟨h.1.symm, h.2.1.symm, h.2.2.symm, rfl, rfl⟩
  case _ => simp at h

/-- Claim C2, counterexample: a LONG position (entry 30000, size 0.1,
SL 29700) whose exit order 55 never fills within the poll budget.  The
outcome records the order refs, keeps the local record and alerts — with
`cancelAttempted = false`: the source's no-fill branch
(`core/position_manager.py`, lines 689-698) contains no cancel call,
contrary to the claim that a best-effort cancel is attempted. -/
theorem checkStopLoss_timeout_no_cancel_cex :
    checkStopLossLive ethPrec posSl 29690 (some 55) (some "NEW") 0
      = .timeoutKeep posSlKept false true := by
  norm_num [checkStopLossLive, posSl, posSlKept, basePos, ethPrec, get_trimmed_quantity,
    round_quantity_down, get_min_qty_by_min_notional, quantizeHalfUp18, ceil_as_floor]

/-- Claim C2, witness: the amended theorem applied at the unfilled-exit
scenario. -/
theorem checkStopLoss_timeout_inv_witness :
    posSlKept = { posSl with last_stop_order_id := some 55, last_stop_order_status := some "NEW" } ∧
    false = false ∧ true = true ∧ ORDER_POLL_TIMEOUT = 8 ∧ ORDER_POLL_INTERVAL = 1 / 2 :=
  checkStopLoss_timeout_inv ethPrec posSl 29690 (some 55) (some "NEW") 0 posSlKept false true
    (by norm_num [checkStopLossLive, posSl, posSlKept, basePos, ethPrec, get_trimmed_quantity,
      round_quantity_down, get_min_qty_by_min_notional, quantizeHalfUp18, ceil_as_floor])

/-- Claim C3: the reconciliation pass never removes a local position while
`now - binance_missing_since` is below the grace window; on first
detection (no `binance_missing_since` stored) it only marks the missing
timestamp; and it closes the local record exactly when the stored missing
timestamp is more than `BINANCE_MISSING_GRACE_SECONDS` (30 s) old. -/
theorem sync_missing_grace (since : Option ℤ) (now : ℤ) :
    (∀ t, since = some t → now - t < BINANCE_MISSING_GRACE_SECONDS →
      syncMissingStep since now ≠ .closeLocal) ∧
    (since = none → syncMissingStep since now = .markMissing now) ∧
    (syncMissingStep since now = .closeLocal →
      ∃ t, since = some t ∧ BINANCE_MISSING_GRACE_SECONDS < now - t) := by
  refine ⟨?_, ?_, ?_⟩
  · rintro t rfl hlt
    simp only [BINANCE_MISSING_GRACE_SECONDS] at hlt
    simp only [syncMissingStep, BINANCE_MISSING_GRACE_SECONDS]
    split_ifs with h0 hgt
    · simp
    · simp only [BINANCE_MISSING_GRACE_SECONDS] at hgt; omega
    · simp
  · rintro rfl; rfl
  · intro h
    cases since with
    | none => simp [syncMissingStep] at h
    | some t =>
      simp only [syncMissingStep] at h
      split_ifs at h with h0 hgt
      exact ⟨t, rfl, hgt⟩

/-- Claim C3, witness: within grace (10 s elapsed) the position is not
closed; with no timestamp the pass only marks; past grace (31 s elapsed)
the close is justified by an over-grace timestamp. -/
theorem sync_missing_grace_witness :
    syncMissingStep (some 100) 110 ≠ SyncAction.closeLocal ∧
    syncMissingStep none 110 = SyncAction.markMissing 110 ∧
    (∃ t, (some 100 : Option ℤ) = some t ∧ BINANCE_MISSING_GRACE_SECONDS < 131 - t) :=
  ⟨(sync_missing_grace (some 100) 110).1 100 rfl
      (by norm_num [BINANCE_MISSING_GRACE_SECONDS]),
   (sync_missing_grace none 110).2.1 rfl,
   (sync_missing_grace (some 100) 131).2.2
      (by norm_num [syncMissingStep, BINANCE_MISSING_GRACE_SECONDS])⟩

/-- Claim C4, counterexample: `add_position` stores under the primary key
a LONG record with entry 100, size 1, SL 90 and TP 50 (take profit on the
wrong side of entry) — the add-path validation only checks entry, size
and the SL distance, so the stored record fails `is_position_sane`,
contrary to the claim that every record stored under a primary key
satisfies the sanity predicate. -/
theorem add_position_unsane_cex :
    add_position (5 / 10 ^ 4) (3 / 100) posBadTp = .stored posBadTp ∧
    is_position_sane (5 / 10 ^ 4) posBadTp = false := by
  constructor
  · norm_num [add_position, posBadTp, basePos]
  · norm_num [is_position_sane, posBadTp, basePos]

/-- Claim C4, amended: every record `add_position` stores under the
primary key has a positive entry price and a positive size (records
failing that check are diverted to the `…_synced_incomplete` marker);
the full `is_position_sane` predicate is NOT enforced on add or update. -/
theorem add_position_stored_valid (minSl fbSl : ℚ) (data rec : Position)
    (h : add_position minSl fbSl data = .stored rec) :
    (∃ en, rec.entry_price = some en ∧ 0 < en) ∧ ∃ sz, rec.size = some sz ∧ 0 < sz := by
  simp only [add_position] at h
  split at h
  case _ en sz hen hsz =>
    by_cases hbad : en ≤ 0 ∨ sz ≤ 0
    · rw [if_pos hbad] at h
      exact AddResult.noConfusion h
    · rw [if_neg hbad] at h
      push_neg at hbad
      obtain ⟨hen0, hsz0⟩ := hbad
      rcases hsl : data.stop_loss with _ | sl <;> simp only [hsl] at h
      · injection h with h
        subst h
        exact ⟨⟨en, hen, hen0⟩, ⟨sz, hsz, hsz0⟩⟩
      · rcases hd : data.direction with _ | _ <;> simp only [hd] at h <;>
          split_ifs at h <;> injection h with h <;> subst h <;>
          exact ⟨⟨en, by simp [hen], hen0⟩, ⟨sz, by simp [hsz], hsz0⟩⟩
  case _ => simp at h

/-- Claim C4, witness: the amended theorem applied to the stored
wrong-side-TP record. -/
theorem add_position_stored_valid_witness :
    (∃ en, posBadTp.entry_price = some en ∧ 0 < en) ∧
    ∃ sz, posBadTp.size = some sz ∧ 0 < sz :=
  add_position_stored_valid (5 / 10 ^ 4) (3 / 100) posBadTp posBadTp
    (by norm_num [add_position, posBadTp, basePos])

/-- Claim C5: `mark_exit_pending` is a compare-and-set.  When the tracked
state is already `EXIT_PENDING` it returns `false` and leaves the entry
unchanged; otherwise it returns `true`, moves the state to `EXIT_PENDING`,
and in any sequence of calls on the same key with no intervening clear
exactly the first call returns `true` (every later call returns
`false`). -/
theorem mark_exit_pending_cas (e : Option TrackerEntry) (n : ℕ) :
    (trackerState e = some .exitPending → mark_exit_pending e = (false, e)) ∧
    (trackerState e ≠ some .exitPending →
      (mark_exit_pending e).1 = true ∧
      trackerState (mark_exit_pending e).2 = some .exitPending ∧
      iterMarkExitPending e (n + 1) = true :: List.replicate n false) := by
  constructor
  · intro he
    simp [mark_exit_pending, he]
  · intro he
    have h1 : mark_exit_pending e = (true, some ⟨.exitPending, none, none⟩) := by
      simp [mark_exit_pending, he]
    refine ⟨by rw [h1], by rw [h1]; rfl, ?_⟩
    simp only [iterMarkExitPending, h1]
    exact congrArg _ (iter_mep_pending n _ rfl)

/-- Claim C5, witness: a key already in `EXIT_PENDING` refuses the CAS and
keeps its entry; three successive calls on an `OPEN` key return exactly
`[true, false, false]`. -/
theorem mark_exit_pending_cas_witness :
    mark_exit_pending (some ⟨.exitPending, some 5, none⟩)
      = (false, some ⟨.exitPending, some 5, none⟩) ∧
    iterMarkExitPending (some ⟨.openPosition, some 9, some "w"⟩) 3
      = [true, false, false] := by
  refine ⟨(mark_exit_pending_cas (some ⟨.exitPending, some 5, none⟩) 0).1 rfl, ?_⟩
  have h := ((mark_exit_pending_cas (some ⟨.openPosition, some 9, some "w"⟩) 2).2
    (by decide)).2.2
  simpa using h

/-- Claim C10: `mark_exit_pending` acquires from ANY state other than
`EXIT_PENDING` — `ENTRY_PENDING`, `OPEN` or an entirely absent entry —
returning `true` and replacing the whole entry with state `EXIT_PENDING`
and no order id, discarding any previously stored order id and source. -/
theorem mark_exit_pending_acquires (e : Option TrackerEntry)
    (he : trackerState e ≠ some .exitPending) :
    mark_exit_pending e = (true, some ⟨.exitPending, none, none⟩) := by
  simp [mark_exit_pending, he]

/-- Claim C10, witness: acquisition from `ENTRY_PENDING` (discarding order
id 42 and source "scalper"), from `OPEN`, and from an absent entry. -/
theorem mark_exit_pending_acquires_witness :
    mark_exit_pending (some ⟨.entryPending, some 42, some "scalper"⟩)
      = (true, some ⟨.exitPending, none, none⟩) ∧
    mark_exit_pending (some ⟨.openPosition, some 7, some "ml"⟩)
      = (true, some ⟨.exitPending, none, none⟩) ∧
    mark_exit_pending none = (true, some ⟨.exitPending, none, none⟩) :=
  ⟨mark_exit_pending_acquires _ (by decide),
   mark_exit_pending_acquires _ (by decide),
   mark_exit_pending_acquires none (by decide)⟩

/-- Claim C8, counterexample: `set_peak_price` is NOT a monotone update:
on a LONG position with stored peak 100, calling the store operation with
price 90 overwrites the peak downward (the store operation has no
monotonicity guard — only its caller in the poll loop guards the
direction). -/
theorem set_peak_price_adverse_cex :
    posPeak.direction = .long ∧ posPeak.peak_price = some 100 ∧
    (set_peak_price posPeak 90).peak_price = some 90 ∧ (90 : ℚ) < 100 :=
  ⟨rfl, rfl, rfl, by norm_num⟩

/-- Claim C8, amended: peak-price updates made through the exit loop's
guarded call site (`price_poll_exit_loop`) are monotone — non-decreasing
for LONG, non-increasing for SHORT — while the raw store operation
`set_peak_price` itself overwrites unconditionally. -/
theorem loop_peak_update_monotone (pos : Position) (price : ℚ) :
    (pos.direction = .long →
      pos.peak_price.getD (pos.entry_price.getD 0) ≤
        (loop_peak_update pos price).peak_price.getD
          ((loop_peak_update pos price).entry_price.getD 0)) ∧
    (pos.direction = .short →
      (loop_peak_update pos price).peak_price.getD
          ((loop_peak_update pos price).entry_price.getD 0) ≤
        pos.peak_price.getD (pos.entry_price.getD 0)) := by
  constructor <;> intro hd <;>
    simp only [loop_peak_update, set_peak_price, hd] <;>
    split_ifs with h <;> simp <;> linarith

/-- Claim C8, witness: the guarded loop update applied to the LONG
position with peak 100 at price 110 never lowers the peak. -/
theorem loop_peak_update_monotone_witness :
    posPeak.peak_price.getD (posPeak.entry_price.getD 0) ≤
      (loop_peak_update posPeak 110).peak_price.getD
        ((loop_peak_update posPeak 110).entry_price.getD 0) :=
  (loop_peak_update_monotone posPeak 110).1 rfl

end Bot
